import Mathlib

/-!
Verification development for the AI-Voice-Interview-System frontend.

The definitions below are a shallow embedding of the two core source
files:
  * `src/frontend/src/services/api.js` — the WebSocket session channel
    (`createInterviewWebSocket`): message dispatch, `send`, `sendAudio`.
  * `src/frontend/src/pages/InterviewPage.jsx` — the interview page:
    media/audio-context setup, audio capture and playback scheduling,
    the cheating-detection signal sources, report handling and teardown.

Times are embedded as exact numbers (`Int` milliseconds for wall-clock
timestamps, `ℚ` seconds for Web-Audio scheduling times).  The JavaScript
values are IEEE doubles; every quantity manipulated here (integral
millisecond counts, sums of frame durations, divisions by the power of
two 32768) is exact in double precision as well, so `ℚ` is a faithful
model for these operations.
-/

namespace AIVoiceInterview

/-! ### WebSocket ready-state constants (browser `WebSocket` API) -/

namespace WS

def CONNECTING : Nat := 0

def OPEN : Nat := 1

def CLOSING : Nat := 2

def CLOSED : Nat := 3

end WS

/-! ### Audio frames

An audio buffer as it crosses the channel: its sample count, channel
count, sample rate and sample format.  (The payload bytes themselves are
irrelevant to the claims about frame shape and routing.) -/

inductive SampleFmt
  | f32
  | i16
deriving DecidableEq, Repr

structure Frame where
  samples : Nat
  channels : Nat
  rate : Nat
  fmt : SampleFmt
deriving DecidableEq, Repr

/-! ### JSON payloads

`send` in `api.js` passes a string through unchanged and serializes any
other payload with `JSON.stringify`.  The control payloads this client
sends are flat objects (string/number/bool fields), so a flat JSON model
suffices. -/

inductive JLit
  | jnull
  | jbool (b : Bool)
  | jnum (n : Int)
  | jstr (s : String)
deriving DecidableEq, Repr

inductive Json
  | lit (l : JLit)
  | obj (fields : List (String × JLit))
deriving DecidableEq, Repr

def JLit.stringify : JLit → String
  | .jnull => "null"
  | .jbool true => "true"
  | .jbool false => "false"
  | .jnum n => toString n
  | .jstr s => "\"" ++ s ++ "\""

def Json.stringify : Json → String
  | .lit l => l.stringify
  | .obj fields =>
      "\x7b" ++ String.intercalate ","
        (fields.map (fun p => "\"" ++ p.1 ++ "\":" ++ p.2.stringify)) ++ "\x7d"

/-- The argument of `send` in `api.js`: either already a string, or a
JSON value to be serialized (`typeof data === 'string' ? data :
JSON.stringify(data)`). -/
inductive SendData
  | str (s : String)
  | json (j : Json)
deriving DecidableEq, Repr

/-! ### The session channel (`createInterviewWebSocket` return value)

`sentText`/`sentAudio` record what was actually transmitted on the
socket.  `queuedAudio` and `droppedWarnings` are observables for the
backpressure queue and drop-warning log that the specification predicts;
the source code contains no such mechanism, so no operation below ever
touches them. -/

structure Channel where
  readyState : Nat
  sentText : List String
  sentAudio : List Frame
  queuedAudio : List Frame
  droppedWarnings : Nat
deriving DecidableEq, Repr

/-- `send` from `api.js` lines 182-186: transmits only when the socket is
OPEN; serializes non-string data to JSON. -/
def Channel.send (c : Channel) (data : SendData) : Channel :=
  if c.readyState = WS.OPEN then
    { c with sentText := c.sentText ++
        [match data with
         | .str s => s
         | .json j => j.stringify] }
  else c

/-- `sendAudio` from `api.js` lines 187-191: transmits the raw buffer
only when the socket is OPEN; otherwise returns with no effect. -/
def Channel.sendAudio (c : Channel) (audioData : Frame) : Channel :=
  if c.readyState = WS.OPEN then
    { c with sentAudio := c.sentAudio ++ [audioData] }
  else c

/-! ### Inbound message dispatch (`ws.onmessage`, `api.js` lines 137-169) -/

/-- The fields of a parsed JSON control message that the dispatcher
reads (`data.type`, `data.text`, `data.strikes`, `data.message`). -/
structure ParsedMsg where
  type : String
  text : String
  strikes : Nat
  message : String
deriving DecidableEq, Repr

/-- An inbound WebSocket message: a binary blob (audio), or a text
message together with the result of `JSON.parse` (`none` models a parse
failure, i.e. the `catch` branch). -/
inductive Inbound
  | binary (audio : Frame)
  | text (parsed : Option ParsedMsg)
deriving DecidableEq, Repr

inductive CallbackCall
  | onConnected
  | onTranscript (text : String)
  | onWarning (strikes : Nat) (message : String)
  | onTerminated (strikes : Nat)
  | onError (message : String)
  | onAudio (audio : Frame)
deriving DecidableEq, Repr

inductive LogEntry
  | unknownMessageType
  | parseFailure
deriving DecidableEq, Repr

/-- The body of `ws.onmessage`: binary data goes to `onAudio`; text is
parsed and dispatched by a switch over `data.type`; an unknown type or a
parse failure is logged and invokes no callback. -/
def handleMessage : Inbound → List CallbackCall × List LogEntry
  | .binary audio => ([.onAudio audio], [])
  | .text none => ([], [.parseFailure])
  | .text (some d) =>
      if d.type = "connected" then ([.onConnected], [])
      else if d.type = "transcript" then ([.onTranscript d.text], [])
      else if d.type = "warning" then ([.onWarning d.strikes d.message], [])
      else if d.type = "terminated" then ([.onTerminated d.strikes], [])
      else if d.type = "error" then ([.onError d.message], [])
      else ([], [.unknownMessageType])

/-! ### Face-presence polling (`detectFace`, `InterviewPage.jsx` lines 232-280)

The core of one poll of the face detector, after the early-return guard
(`!videoRef.current || !faceDetectorRef.current || terminated`): given
the reference time `last` (`lastFaceDetectedRef.current`), the current
time `now` (`Date.now()`) and the number of detected faces, it returns
the updated reference time and the violation emitted by this poll (if
any). -/

inductive FaceObs
  | noFaceEv
  | multipleFacesEv
deriving DecidableEq, Repr

def detectFaceStep (last now : Int) (faces : Nat) : Int × Option FaceObs :=
  if faces = 0 then
    if now - last > 3000 then (now, some .noFaceEv) else (last, none)
  else if 1 < faces then (last, some .multipleFacesEv)
  else (now, none)

/-! ### Playback scheduling (`playAudio`, `InterviewPage.jsx` lines 134-174)

Times are in seconds (`AudioContext.currentTime` units), embedded in
`ℚ`.  One call computes the start time of the incoming buffer from the
current context time and the scheduling cursor `nextStartTimeRef`, and
the updated cursor. -/

def playAudioStep (currentTime nextStartTime duration : ℚ) : ℚ × ℚ :=
  let startTime := max currentTime nextStartTime
  let n1 := startTime + duration
  let n2 := if n1 < currentTime then currentTime else n1
  (startTime, n2)

/-- A sequence of `playAudio` calls: each input is the context's
`currentTime` at the call together with the buffer's duration; the
output is the list of scheduled intervals `(startTime, startTime +
duration)` and the final cursor value. -/
def playRun (nextStartTime : ℚ) : List (ℚ × ℚ) → List (ℚ × ℚ) × ℚ
  | [] => ([], nextStartTime)
  | (cur, dur) :: rest =>
      let p := playAudioStep cur nextStartTime dur
      let r := playRun p.2 rest
      ((p.1, p.1 + dur) :: r.1, r.2)

/-! ### PCM16 → Float32 conversion (`playAudio`, lines 142-148)

`new Int16Array(arrayBuffer)` reinterprets consecutive byte pairs as
little-endian signed 16-bit integers; the loop then divides each by
32768.  Division by the power of two 32768 is exact in both double and
`Float32` for these inputs, so `ℚ` models the values exactly. -/

def bytesToInt16 (lo hi : Nat) : Int :=
  let u := lo + 256 * hi
  if u < 32768 then (u : Int) else (u : Int) - 65536

def pcm16Samples : List Nat → List Int
  | lo :: hi :: rest => bytesToInt16 lo hi :: pcm16Samples rest
  | _ => []

def pcm16ToFloat32 (bytes : List Nat) : List ℚ :=
  (pcm16Samples bytes).map (fun v : Int => (v : ℚ) / 32768)

/-! ### The interview page state machine (`InterviewPage.jsx`)

Each browser event handler in the page runs as one synchronous block
(the `await` points in the source separate blocks exactly at the
boundaries modelled here), so the page is embedded as a step function
over an explicit state, one step per handler invocation. -/

inductive EventType
  | tab_switch
  | window_blur
  | right_click
  | copy_attempt
  | no_face
  | multiple_faces
  | looking_away
deriving DecidableEq, Repr

/-- The backend's response to `reportCheating`
(`{strikes, terminated, warning_message?}`). -/
structure ReportResponse where
  strikes : Nat
  terminated : Bool
deriving DecidableEq, Repr

/-- A violation report issued to the backend (`reportCheating` call). -/
structure Report where
  event_type : EventType
  confidence : ℚ
deriving DecidableEq, Repr

inductive Status
  | connecting
  | connected
  | disconnected
  | error
deriving DecidableEq, Repr

structure PageState where
  status : Status
  strikes : Nat
  terminated : Bool
  isRecording : Bool
  /-- whether the ScriptProcessor capture graph is connected
  (`mediaRecorderRef` holding a live processor). -/
  processorConnected : Bool
  /-- `streamRef.current` is non-null. -/
  hasStream : Bool
  /-- `audioContextRef.current`: `none` when null, otherwise its sample
  rate. -/
  ctxRate : Option Nat
  /-- the sample rate of the context the capture graph was built on. -/
  captureRate : Nat
  tabSwitchCount : Nat
  /-- `lastFaceDetectedRef.current`, ms. -/
  lastFaceDetected : Int
  /-- `faceDetectorRef.current` and `videoRef.current` are usable. -/
  faceDetectorAvailable : Bool
  /-- every frame read from the microphone by `onaudioprocess`. -/
  capturedFrames : List Frame
  /-- outbound `reportCheating` calls issued. -/
  reports : List Report
  /-- number of `endInterview` (teardown) requests issued. -/
  endRequests : Nat
  ws : Channel
deriving DecidableEq, Repr

/-- `cleanup()` (lines 356-374): disconnect the processor, close the
socket, stop the media tracks, close the audio context. -/
def cleanup (s : PageState) : PageState :=
  { s with processorConnected := false,
           ws := { s.ws with readyState := WS.CLOSING },
           hasStream := false,
           ctxRate := none }

/-- `handleInterviewEnd` (lines 336-354): always runs `cleanup` and then
issues the `endInterview` request (issued whether or not it succeeds). -/
def handleInterviewEnd (s : PageState) : PageState :=
  let s := cleanup s
  { s with endRequests := s.endRequests + 1 }

/-- `handleCheatingDetection` (lines 313-334): report the event, then
apply the backend's response — `if (result.strikes)` updates the strike
display, `if (result.terminated)` sets the terminated flag and tears the
session down.  `resp = none` models `reportCheating` throwing (the
`catch` branch: logged, no state change beyond the issued report). -/
def handleCheatingDetection (event_type : EventType) (confidence : ℚ)
    (resp : Option ReportResponse) (s : PageState) : PageState :=
  let s := { s with reports := s.reports ++ [⟨event_type, confidence⟩] }
  match resp with
  | none => s
  | some result =>
      let s := if result.strikes ≠ 0 then { s with strikes := result.strikes } else s
      if result.terminated then handleInterviewEnd { s with terminated := true }
      else s

/-- `startAudioCapture` (lines 86-129): requires the media stream and the
audio context; builds the ScriptProcessor (4096 samples, 1 in / 1 out
channel) on that context and marks recording. -/
def startAudioCapture (s : PageState) : PageState :=
  match s.ctxRate with
  | none => s
  | some r =>
      if s.hasStream then
        { s with processorConnected := true, isRecording := true, captureRate := r }
      else s

/-- One handler invocation on the page.  Violation-source events carry
the backend's response to the report they would issue. -/
inductive PageEvent
  | mediaSuccess
  | mediaFailure
  | wsConnected
  | captureTick
  | inboundAudio
  | visibilityHidden (resp : Option ReportResponse)
  | windowBlur (resp : Option ReportResponse)
  | contextMenu (resp : Option ReportResponse)
  | copyEvent (resp : Option ReportResponse)
  | facePoll (now : Int) (faces : Nat) (resp : Option ReportResponse)
  | serverWarning (strikes : Nat)
  | serverTerminated (strikes : Nat)
  | manualEnd
  | wsClose
deriving DecidableEq, Repr

def step (s : PageState) : PageEvent → PageState
  | .mediaSuccess =>
      { s with hasStream := true, ctxRate := some 16000 }
  | .mediaFailure =>
      { s with status := .error }
  | .wsConnected =>
      startAudioCapture { s with status := .connected,
                                 ws := { s.ws with readyState := WS.OPEN } }
  | .captureTick =>
      if s.processorConnected then
        let frame : Frame := ⟨4096, 1, s.captureRate, .f32⟩
        { s with capturedFrames := s.capturedFrames ++ [frame],
                 ws := s.ws.sendAudio frame }
      else s
  | .inboundAudio =>
      if s.ctxRate = none then { s with ctxRate := some 24000 } else s
  | .visibilityHidden resp =>
      if s.terminated then s
      else handleCheatingDetection .tab_switch 1 resp
             { s with tabSwitchCount := s.tabSwitchCount + 1 }
  | .windowBlur resp =>
      if s.terminated then s
      else handleCheatingDetection .window_blur (85/100) resp s
  | .contextMenu resp =>
      if s.terminated then s
      else handleCheatingDetection .right_click (65/100) resp s
  | .copyEvent resp =>
      if s.terminated then s
      else handleCheatingDetection .copy_attempt (7/10) resp s
  | .facePoll now faces resp =>
      if s.terminated || !s.faceDetectorAvailable then s
      else
        match detectFaceStep s.lastFaceDetected now faces with
        | (last1, some .noFaceEv) =>
            handleCheatingDetection .no_face (8/10) resp
              { s with lastFaceDetected := last1 }
        | (last1, some .multipleFacesEv) =>
            handleCheatingDetection .multiple_faces (9/10) resp
              { s with lastFaceDetected := last1 }
        | (last1, none) => { s with lastFaceDetected := last1 }
  | .serverWarning n =>
      { s with strikes := n }
  | .serverTerminated n =>
      handleInterviewEnd { s with terminated := true, strikes := n }
  | .manualEnd =>
      handleInterviewEnd s
  | .wsClose =>
      { s with status := .disconnected,
               ws := { s.ws with readyState := WS.CLOSED } }

def run (s : PageState) : List PageEvent → PageState
  | [] => s
  | e :: rest => run (step s e) rest

/-- The page state at mount: connecting, no strikes, not terminated, no
media yet, socket created and connecting. -/
def initState : PageState :=
  { status := .connecting, strikes := 0, terminated := false,
    isRecording := false, processorConnected := false, hasStream := false,
    ctxRate := none, captureRate := 0, tabSwitchCount := 0,
    lastFaceDetected := 0, faceDetectorAvailable := true,
    capturedFrames := [], reports := [], endRequests := 0,
    ws := { readyState := WS.CONNECTING, sentText := [], sentAudio := [],
            queuedAudio := [], droppedWarnings := 0 } }

/-- Events produced by the cheating-detection signal sources
(visibility, blur, context-menu, copy, face poll). -/
def isViolationSourceEvent : PageEvent → Bool
  | .visibilityHidden _ => true
  | .windowBlur _ => true
  | .contextMenu _ => true
  | .copyEvent _ => true
  | .facePoll _ _ _ => true
  | _ => false

/-! ## Shared concrete objects and helper lemmas -/

def closedChannel : Channel :=
  { readyState := WS.CLOSED, sentText := [], sentAudio := [],
    queuedAudio := [], droppedWarnings := 0 }

def testFrame : Frame := ⟨4096, 1, 16000, .f32⟩

lemma pcm16Samples_length : ∀ bytes : List Nat,
    (pcm16Samples bytes).length = bytes.length / 2
  | [] => by simp [pcm16Samples]
  | [_] => by simp [pcm16Samples]
  | _ :: _ :: rest => by
      simp only [pcm16Samples, List.length_cons, pcm16Samples_length rest]
      omega

lemma pcm16ToFloat32_length (bytes : List Nat) :
    (pcm16ToFloat32 bytes).length = (pcm16Samples bytes).length :=
  List.length_map _ _

lemma bytesToInt16_bounds (lo hi : Nat) (hlo : lo < 256) (hhi : hi < 256) :
    -32768 ≤ bytesToInt16 lo hi ∧ bytesToInt16 lo hi ≤ 32767 := by
  unfold bytesToInt16
  dsimp only
  split <;> omega

lemma pcm16Samples_bounds : ∀ bytes : List Nat, (∀ b ∈ bytes, b < 256) →
    ∀ v ∈ pcm16Samples bytes, -32768 ≤ v ∧ v ≤ 32767
  | [], _, v, hv => by simp [pcm16Samples] at hv
  | [_], _, v, hv => by simp [pcm16Samples] at hv
  | lo :: hi :: rest, hb, v, hv => by
      simp only [pcm16Samples, List.mem_cons] at hv
      rcases hv with rfl | hv
      · exact bytesToInt16_bounds lo hi (hb lo (by simp)) (hb hi (by simp))
      · exact pcm16Samples_bounds rest (fun b h => hb b (by simp [h])) v hv

lemma playRun_bounds : ∀ (inputs : List (ℚ × ℚ)) (next : ℚ),
    (∀ p ∈ inputs, 0 ≤ p.2) →
    (∀ iv ∈ (playRun next inputs).1, next ≤ iv.1 ∧ iv.1 ≤ iv.2) ∧
    List.Pairwise (fun a b : ℚ × ℚ => a.2 ≤ b.1) (playRun next inputs).1
  | [], next, _ => by simp [playRun]
  | (cur, dur) :: rest, next, h => by
      have hdur : 0 ≤ dur := h (cur, dur) (List.mem_cons_self _ _)
      have hrest : ∀ p ∈ rest, 0 ≤ p.2 := fun p hp => h p (List.mem_cons_of_mem _ hp)
      have hm : cur ≤ max cur next + dur :=
        le_trans (le_max_left _ _) (le_add_of_nonneg_right hdur)
      have hstep : playAudioStep cur next dur = (max cur next, max cur next + dur) := by
        unfold playAudioStep
        simp only
        rw [if_neg (not_lt.mpr hm)]
      obtain ⟨ihb, ihp⟩ := playRun_bounds rest (max cur next + dur) hrest
      have hnm : next ≤ max cur next + dur :=
        le_trans (le_max_right _ _) (le_add_of_nonneg_right hdur)
      constructor
      · intro iv hiv
        simp only [playRun, hstep, List.mem_cons] at hiv
        rcases hiv with rfl | hiv
        · exact ⟨le_max_right _ _, le_add_of_nonneg_right hdur⟩
        · exact ⟨le_trans hnm (ihb iv hiv).1, (ihb iv hiv).2⟩
      · simp only [playRun, hstep]
        exact List.Pairwise.cons (fun b hb => (ihb b hb).1) ihp

/-! ## Claims -/

/-- C3 counterexample: a captured frame offered while the channel is not
open (`readyState = CLOSED`) is dropped with no queue entry, no logged
warning, and no transmission — i.e. it is dropped silently, contradicting
the claimed bounded backpressure queue with oldest-drop and warning. -/
theorem c3_silent_drop_counterexample :
    (closedChannel.sendAudio testFrame).queuedAudio = [] ∧
    (closedChannel.sendAudio testFrame).droppedWarnings = 0 ∧
    (closedChannel.sendAudio testFrame).sentAudio = [] := by decide

/-- C3 (amended): a frame offered while the channel cannot accept it is
dropped silently — `sendAudio` returns at once with the channel state
(transmissions, queue, warning log) unchanged, so capture is never
blocked, but nothing is queued and no warning is logged. -/
theorem c3_backpressure_amended (c : Channel) (f : Frame)
    (h : c.readyState ≠ WS.OPEN) :
    c.sendAudio f = c := by
  simp [Channel.sendAudio, h]

theorem c3_backpressure_amended_witness :
    closedChannel.readyState ≠ WS.OPEN ∧
    closedChannel.sendAudio testFrame = closedChannel :=
  ⟨by decide, c3_backpressure_amended closedChannel testFrame (by decide)⟩

/-- C4: each `playAudio` call schedules its buffer at
`max currentTime nextStartTime` — hence no earlier than the context's
current time and no earlier than the previous frame's end time — and the
cursor advances to exactly the frame's end, so the cursor is monotone
non-decreasing; when the cursor has fallen behind real time the frame
starts exactly at "now"; and over any sequence of calls with non-negative
durations the scheduled intervals are pairwise non-overlapping. -/
theorem c4_playback_scheduling (cur next dur : ℚ) (hdur : 0 ≤ dur)
    (inputs : List (ℚ × ℚ)) (hins : ∀ p ∈ inputs, 0 ≤ p.2) :
    (playAudioStep cur next dur).1 = max cur next ∧
    cur ≤ (playAudioStep cur next dur).1 ∧
    next ≤ (playAudioStep cur next dur).1 ∧
    (playAudioStep cur next dur).2 = (playAudioStep cur next dur).1 + dur ∧
    next ≤ (playAudioStep cur next dur).2 ∧
    (next < cur → (playAudioStep cur next dur).1 = cur) ∧
    List.Pairwise (fun a b : ℚ × ℚ => a.2 ≤ b.1) (playRun next inputs).1 := by
  have hm : cur ≤ max cur next + dur :=
    le_trans (le_max_left _ _) (le_add_of_nonneg_right hdur)
  have hstep : playAudioStep cur next dur = (max cur next, max cur next + dur) := by
    unfold playAudioStep
    simp only
    rw [if_neg (not_lt.mpr hm)]
  refine ⟨by rw [hstep], ?_, ?_, by rw [hstep], ?_, ?_, ?_⟩
  · rw [hstep]; exact le_max_left _ _
  · rw [hstep]; exact le_max_right _ _
  · rw [hstep]; exact le_trans (le_max_right _ _) (le_add_of_nonneg_right hdur)
  · intro hlt; rw [hstep]; exact max_eq_left (le_of_lt hlt)
  · exact (playRun_bounds inputs next hins).2

theorem c4_playback_scheduling_witness :
    (0 : ℚ) ≤ 3 ∧
    (playAudioStep 2 1 3).1 = max 2 1 ∧
    List.Pairwise (fun a b : ℚ × ℚ => a.2 ≤ b.1)
      (playRun 1 [((0 : ℚ), (1 : ℚ)), (5, 2)]).1 :=
  ⟨by norm_num,
   (c4_playback_scheduling 2 1 3 (by norm_num) [(0, 1), (5, 2)] (by decide)).1,
   (c4_playback_scheduling 2 1 3 (by norm_num) [(0, 1), (5, 2)]
      (by decide)).2.2.2.2.2.2⟩

/-- C5 counterexample: with the reference time 0 (a single face last seen
at t = 0 ms), a poll at t = 2500 ms DOES detect faces (two of them,
emitting `multiple_faces`) and leaves the reference time at 0; the next
poll at t = 4000 ms with zero faces then emits `no_face`, although no
face had been absent for only 4000 − 2500 = 1500 ms < 3000 ms — the code
measures from the last single-face observation, not from when faces
stopped being detected, so the claim's "no face detected continuously for
strictly more than 3 seconds" is violated. -/
theorem c5_grace_window_counterexample :
    detectFaceStep 0 2500 2 = (0, some .multipleFacesEv) ∧
    detectFaceStep 0 4000 0 = (4000, some .noFaceEv) ∧
    (4000 : Int) - 2500 < 3000 := by decide

/-- C5 (amended): a `no_face` event is emitted exactly when the poll sees
zero faces and strictly more than 3000 ms have passed since the reference
time — the last poll that observed exactly one face (a poll observing
multiple faces emits `multiple_faces` immediately and does NOT refresh
the reference time).  Emission resets the reference time to "now", so one
continuous absence yields at most one event per grace period; polls with
zero faces within 3000 ms of the reference time emit nothing. -/
theorem c5_detectFace_amended (last now : Int) (faces : Nat) :
    (faces = 0 →
      (3000 < now - last → detectFaceStep last now faces = (now, some .noFaceEv)) ∧
      (now - last ≤ 3000 → detectFaceStep last now faces = (last, none))) ∧
    (faces = 1 → detectFaceStep last now faces = (now, none)) ∧
    (2 ≤ faces → detectFaceStep last now faces = (last, some .multipleFacesEv)) := by
  refine ⟨?_, ?_, ?_⟩
  · rintro rfl
    constructor
    · intro h
      simp [detectFaceStep, h]
    · intro h
      simp [detectFaceStep, not_lt.mpr h]
  · rintro rfl
    simp [detectFaceStep]
  · intro h
    have h0 : ¬faces = 0 := by omega
    have h1 : 1 < faces := by omega
    simp [detectFaceStep, h0, h1]

theorem c5_detectFace_amended_witness :
    detectFaceStep 0 5000 0 = (5000, some .noFaceEv) ∧
    detectFaceStep 0 2000 0 = (0, none) :=
  ⟨((c5_detectFace_amended 0 5000 0).1 rfl).1 (by decide),
   ((c5_detectFace_amended 0 2000 0).1 rfl).2 (by decide)⟩

/-- C7: an inbound text message that fails to parse, or whose parsed
`type` is none of the five known control types, invokes no callback and
only produces a log entry; the dispatcher is a total function, so no
exception propagates and the session continues. -/
theorem c7_unknown_message_ignored (d : ParsedMsg)
    (h : d.type ∉ (["connected", "transcript", "warning", "terminated",
                    "error"] : List String)) :
    handleMessage (.text none) = ([], [.parseFailure]) ∧
    handleMessage (.text (some d)) = ([], [.unknownMessageType]) := by
  simp only [List.mem_cons, List.not_mem_nil, or_false, not_or] at h
  obtain ⟨h1, h2, h3, h4, h5⟩ := h
  exact ⟨rfl, by simp [handleMessage, h1, h2, h3, h4, h5]⟩

theorem c7_unknown_message_ignored_witness :
    handleMessage (.text (some (ParsedMsg.mk "ping" "" 0 ""))) =
      ([], [.unknownMessageType]) :=
  (c7_unknown_message_ignored (ParsedMsg.mk "ping" "" 0 "") (by decide)).2

/-- C9: reinterpreting a byte buffer of length 2·n as PCM16 and dividing
each sample by 32768 yields exactly n rational samples, the i-th output
being the i-th signed 16-bit sample over 32768, and every output lies in
the interval [-1, 1). -/
theorem c9_pcm16_conversion (bytes : List Nat) (n : Nat)
    (hlen : bytes.length = 2 * n) (hb : ∀ b ∈ bytes, b < 256) :
    (pcm16ToFloat32 bytes).length = n ∧
    (∀ i : Nat, (pcm16ToFloat32 bytes)[i]? =
        ((pcm16Samples bytes)[i]?).map (fun v : Int => (v : ℚ) / 32768)) ∧
    (∀ q ∈ pcm16ToFloat32 bytes, -1 ≤ q ∧ q < 1) := by
  refine ⟨?_, ?_, ?_⟩
  · rw [pcm16ToFloat32_length, pcm16Samples_length, hlen]
    omega
  · intro i
    simp only [pcm16ToFloat32, List.getElem?_map]
  · intro q hq
    simp only [pcm16ToFloat32, List.mem_map] at hq
    obtain ⟨v, hv, rfl⟩ := hq
    obtain ⟨hv1, hv2⟩ := pcm16Samples_bounds bytes hb v hv
    have hq1 : (-32768 : ℚ) ≤ (v : ℚ) := by exact_mod_cast hv1
    have hq2 : (v : ℚ) ≤ 32767 := by exact_mod_cast hv2
    constructor
    · linarith
    · linarith

theorem c9_pcm16_conversion_witness :
    ([0, 128] : List Nat).length = 2 * 1 ∧
    (pcm16ToFloat32 [0, 128]).length = 1 ∧
    ∀ q ∈ pcm16ToFloat32 [0, 128], -1 ≤ q ∧ q < 1 :=
  ⟨by decide, (c9_pcm16_conversion [0, 128] 1 (by decide) (by decide)).1,
   (c9_pcm16_conversion [0, 128] 1 (by decide) (by decide)).2.2⟩

/-- C10: `send` and `sendAudio` are total at the interface — when the
socket is not OPEN they return with the channel unchanged (nothing
transmitted, nothing thrown) — and when the socket is OPEN, `send`
transmits a string payload verbatim and serializes a non-string payload
to JSON before transmission. -/
theorem c10_send_total_and_serializing (c : Channel) (d : SendData)
    (f : Frame) (s : String) (j : Json) :
    (c.readyState ≠ WS.OPEN → c.send d = c ∧ c.sendAudio f = c) ∧
    (c.readyState = WS.OPEN →
      (c.send (.str s)).sentText = c.sentText ++ [s] ∧
      (c.send (.json j)).sentText = c.sentText ++ [j.stringify] ∧
      (c.sendAudio f).sentAudio = c.sentAudio ++ [f]) := by
  constructor
  · intro h
    exact ⟨by simp [Channel.send, h], by simp [Channel.sendAudio, h]⟩
  · intro h
    exact ⟨by simp [Channel.send, h], by simp [Channel.send, h],
           by simp [Channel.sendAudio, h]⟩

theorem c10_send_total_and_serializing_witness :
    closedChannel.readyState ≠ WS.OPEN ∧
    closedChannel.send (.str "hi") = closedChannel ∧
    closedChannel.sendAudio testFrame = closedChannel :=
  ⟨by decide,
   ((c10_send_total_and_serializing closedChannel (.str "hi") testFrame "hi"
       (.lit .jnull)).1 (by decide)).1,
   ((c10_send_total_and_serializing closedChannel (.str "hi") testFrame "hi"
       (.lit .jnull)).1 (by decide)).2⟩

/-! ## Page state machine: helper lemmas -/

lemma step_violation_noop (s : PageState) (e : PageEvent)
    (hterm : s.terminated = true) (hve : isViolationSourceEvent e = true) :
    step s e = s := by
  cases e <;> simp_all [step, isViolationSourceEvent]

lemma step_terminated_mono (s : PageState) (e : PageEvent)
    (hterm : s.terminated = true) :
    (step s e).terminated = true := by
  cases e <;>
    simp_all [step, startAudioCapture, handleInterviewEnd, cleanup,
      handleCheatingDetection] <;>
    (repeat' split) <;> simp_all

/-- The strike-rate invariant maintained by every page event: while the
media stream is live the audio context is the 16 kHz capture context,
a connected capture graph was built on a 16 kHz context, and every frame
captured or transmitted so far is a mono 4096-sample Float32 frame at
16 kHz. -/
def captureInv (s : PageState) : Prop :=
  (s.hasStream = true → s.ctxRate = some 16000) ∧
  (s.processorConnected = true → s.captureRate = 16000) ∧
  (∀ f ∈ s.ws.sentAudio,
    f.samples = 4096 ∧ f.channels = 1 ∧ f.rate = 16000 ∧ f.fmt = .f32) ∧
  (∀ f ∈ s.capturedFrames,
    f.samples = 4096 ∧ f.channels = 1 ∧ f.rate = 16000 ∧ f.fmt = .f32)

lemma captureInv_init : captureInv initState := by
  refine ⟨?_, ?_, ?_, ?_⟩ <;> simp [initState]

lemma captureInv_handleCheatingDetection (et : EventType) (conf : ℚ)
    (resp : Option ReportResponse) (s : PageState) (h : captureInv s) :
    captureInv (handleCheatingDetection et conf resp s) := by
  obtain ⟨h1, h2, h3, h4⟩ := h
  unfold handleCheatingDetection handleInterviewEnd cleanup
  rcases resp with _ | r
  · exact ⟨h1, h2, h3, h4⟩
  · dsimp only
    split <;> split <;> refine ⟨?_, ?_, ?_, ?_⟩ <;> simp_all

lemma captureInv_handleInterviewEnd (s : PageState) (h : captureInv s) :
    captureInv (handleInterviewEnd s) := by
  obtain ⟨h1, h2, h3, h4⟩ := h
  unfold handleInterviewEnd cleanup
  exact ⟨by simp, by simp, h3, h4⟩

lemma captureInv_step (s : PageState) (e : PageEvent) (h : captureInv s) :
    captureInv (step s e) := by
  obtain ⟨h1, h2, h3, h4⟩ := h
  cases e with
  | mediaSuccess => exact ⟨fun _ => rfl, h2, h3, h4⟩
  | mediaFailure => exact ⟨h1, h2, h3, h4⟩
  | wsConnected =>
      show captureInv (startAudioCapture _)
      unfold startAudioCapture
      cases hc : s.ctxRate with
      | none =>
          dsimp only
          refine ⟨?_, h2, h3, h4⟩
          intro hs
          rw [h1 hs] at hc
          exact absurd hc (by simp)
      | some r =>
          dsimp only
          split
          next hs =>
            have hr : r = 16000 := by
              have h5 := h1 hs
              rw [hc] at h5
              injection h5
            exact ⟨fun _ => by rw [hr], fun _ => hr, h3, h4⟩
          next hs => exact ⟨fun h5 => absurd h5 hs, h2, h3, h4⟩
  | captureTick =>
      simp only [step]
      split
      next hp =>
        have hrate := h2 hp
        refine ⟨h1, fun _ => hrate, ?_, ?_⟩
        · intro f hf
          unfold Channel.sendAudio at hf
          split at hf
          · rcases List.mem_append.mp hf with hin | hin
            · exact h3 f hin
            · rw [List.mem_singleton.mp hin]
              exact ⟨rfl, rfl, hrate, rfl⟩
          · exact h3 f hf
        · intro f hf
          rcases List.mem_append.mp hf with hin | hin
          · exact h4 f hin
          · rw [List.mem_singleton.mp hin]
            exact ⟨rfl, rfl, hrate, rfl⟩
      next => exact ⟨h1, h2, h3, h4⟩
  | inboundAudio =>
      simp only [step]
      split
      next hc =>
        refine ⟨?_, h2, h3, h4⟩
        intro hs
        rw [h1 hs] at hc
        exact absurd hc (by simp)
      next => exact ⟨h1, h2, h3, h4⟩
  | visibilityHidden resp =>
      simp only [step]
      split
      · exact ⟨h1, h2, h3, h4⟩
      · exact captureInv_handleCheatingDetection _ _ resp _ ⟨h1, h2, h3, h4⟩
  | windowBlur resp =>
      simp only [step]
      split
      · exact ⟨h1, h2, h3, h4⟩
      · exact captureInv_handleCheatingDetection _ _ resp _ ⟨h1, h2, h3, h4⟩
  | contextMenu resp =>
      simp only [step]
      split
      · exact ⟨h1, h2, h3, h4⟩
      · exact captureInv_handleCheatingDetection _ _ resp _ ⟨h1, h2, h3, h4⟩
  | copyEvent resp =>
      simp only [step]
      split
      · exact ⟨h1, h2, h3, h4⟩
      · exact captureInv_handleCheatingDetection _ _ resp _ ⟨h1, h2, h3, h4⟩
  | facePoll now faces resp =>
      simp only [step]
      split
      · exact ⟨h1, h2, h3, h4⟩
      · split
        · exact captureInv_handleCheatingDetection _ _ resp _ ⟨h1, h2, h3, h4⟩
        · exact captureInv_handleCheatingDetection _ _ resp _ ⟨h1, h2, h3, h4⟩
        · exact ⟨h1, h2, h3, h4⟩
  | serverWarning n => exact ⟨h1, h2, h3, h4⟩
  | serverTerminated n =>
      exact captureInv_handleInterviewEnd _ ⟨h1, h2, h3, h4⟩
  | manualEnd =>
      exact captureInv_handleInterviewEnd _ ⟨h1, h2, h3, h4⟩
  | wsClose => exact ⟨h1, h2, h3, h4⟩

lemma captureInv_run : ∀ (events : List PageEvent) (s : PageState),
    captureInv s → captureInv (run s events)
  | [], _, h => h
  | e :: rest, s, h => captureInv_run rest (step s e) (captureInv_step s e h)

/-- A session that connected normally and then received a terminal
strike over the channel. -/
def terminatedState : PageState :=
  run initState [.mediaSuccess, .wsConnected, .serverTerminated 2]

/-- A session that connected normally and is active. -/
def activeState : PageState := run initState [.mediaSuccess, .wsConnected]

/-- A session that connected normally and then lost the connection. -/
def disconnectedState : PageState :=
  run initState [.mediaSuccess, .wsConnected, .wsClose]

/-! ## Claims over the page state machine -/

/-- C1: once the terminated flag is set, every subsequent signal-source
violation submission is a complete no-op — the state (strikes, report
log, everything) is unchanged, so no violation event is emitted or
reported — and no event whatsoever ever clears the terminated flag, so
the session is never re-opened. -/
theorem c1_termination_final (s : PageState) (e : PageEvent)
    (hterm : s.terminated = true) :
    (isViolationSourceEvent e = true → step s e = s) ∧
    (step s e).terminated = true :=
  ⟨step_violation_noop s e hterm, step_terminated_mono s e hterm⟩

theorem c1_termination_final_witness :
    terminatedState.terminated = true ∧
    step terminatedState (.windowBlur (some ⟨3, false⟩)) = terminatedState ∧
    (step terminatedState (.windowBlur (some ⟨3, false⟩))).terminated = true :=
  ⟨by decide,
   (c1_termination_final terminatedState (.windowBlur (some ⟨3, false⟩))
      (by decide)).1 rfl,
   (c1_termination_final terminatedState (.windowBlur (some ⟨3, false⟩))
      (by decide)).2⟩

/-- C2 counterexample: from a normally connected session, a terminal
strike arriving over the channel followed by a manual end-interview
request issues TWO teardown (`endInterview`) requests — the second
trigger is not a no-op, contradicting "at most one end-interview/teardown
request is ever issued". -/
theorem c2_double_teardown_counterexample :
    (run activeState [.serverTerminated 2, .manualEnd]).endRequests = 2 ∧
    ¬(run activeState [.serverTerminated 2, .manualEnd]).endRequests ≤ 1 := by
  decide

/-- C2 (amended): there is no transition lock — each teardown trigger
issues its own end-interview request, so a terminal strike and a manual
end-interview request, in whatever order they fire, issue exactly two
teardown requests in total (the second trigger is NOT a no-op); in both
orders the terminated flag is set afterwards, so the terminal strike is
always recorded as the session's fate. -/
theorem c2_teardown_amended (s : PageState) (n : Nat) :
    ((run s [.serverTerminated n, .manualEnd]).endRequests = s.endRequests + 2 ∧
     (run s [.serverTerminated n, .manualEnd]).terminated = true) ∧
    ((run s [.manualEnd, .serverTerminated n]).endRequests = s.endRequests + 2 ∧
     (run s [.manualEnd, .serverTerminated n]).terminated = true) := by
  simp [run, step, handleInterviewEnd, cleanup]

/-- C6 counterexample: after connection loss the status is
`disconnected`, but audio capture has NOT stopped — the ScriptProcessor
is still connected, and a further capture tick reads another frame from
the microphone (the frame is then dropped by the closed channel; capture
itself was never stopped), contradicting "all further audio capture and
playback scheduling stops". -/
theorem c6_capture_after_disconnect_counterexample :
    disconnectedState.status = .disconnected ∧
    disconnectedState.processorConnected = true ∧
    (step disconnectedState .captureTick).capturedFrames.length =
      disconnectedState.capturedFrames.length + 1 := by
  decide

/-- C6 (amended): connection loss transitions the status to
`disconnected` and the socket to CLOSED; while the socket is not open a
capture tick transmits nothing (its frames are dropped at the channel,
though capture itself keeps running until cleanup); and no event other
than the socket's own open callback — which a browser WebSocket fires at
most once, before any close — ever makes the channel open again, so the
session never reconnects. -/
theorem c6_disconnect_amended (s : PageState) (e : PageEvent) :
    (step s .wsClose).status = .disconnected ∧
    (step s .wsClose).ws.readyState = WS.CLOSED ∧
    (s.ws.readyState ≠ WS.OPEN →
      (step s .captureTick).ws.sentAudio = s.ws.sentAudio) ∧
    (e ≠ .wsConnected → s.ws.readyState ≠ WS.OPEN →
      (step s e).ws.readyState ≠ WS.OPEN) := by
  refine ⟨rfl, rfl, ?_, ?_⟩
  · intro h
    cases hp : s.processorConnected <;>
      simp [step, hp, Channel.sendAudio, h]
  · intro hne h
    cases e <;>
      simp_all [step, startAudioCapture, handleInterviewEnd, cleanup,
        handleCheatingDetection, Channel.sendAudio, WS.OPEN, WS.CLOSING,
        WS.CLOSED] <;>
      (repeat' split) <;> simp_all

theorem c6_disconnect_amended_witness :
    (step disconnectedState .wsClose).status = .disconnected ∧
    (step disconnectedState .captureTick).ws.sentAudio =
      disconnectedState.ws.sentAudio ∧
    (step disconnectedState .manualEnd).ws.readyState ≠ WS.OPEN :=
  ⟨(c6_disconnect_amended disconnectedState .manualEnd).1,
   (c6_disconnect_amended disconnectedState .manualEnd).2.2.1 (by decide),
   (c6_disconnect_amended disconnectedState .manualEnd).2.2.2 (by decide)
     (by decide)⟩

/-- C8: every audio frame transmitted outbound over the session channel,
in any run from the page's initial state, is a mono (1-channel) Float32
frame of exactly 4096 samples at a 16 kHz sample rate. -/
theorem c8_outbound_frame_shape (events : List PageEvent) (f : Frame)
    (hf : f ∈ (run initState events).ws.sentAudio) :
    f.samples = 4096 ∧ f.channels = 1 ∧ f.rate = 16000 ∧ f.fmt = .f32 :=
  (captureInv_run events initState captureInv_init).2.2.1 f hf

theorem c8_outbound_frame_shape_witness :
    (⟨4096, 1, 16000, .f32⟩ : Frame) ∈
      (run initState [.mediaSuccess, .wsConnected, .captureTick]).ws.sentAudio ∧
    (⟨4096, 1, 16000, .f32⟩ : Frame).rate = 16000 :=
  ⟨by decide,
   (c8_outbound_frame_shape [.mediaSuccess, .wsConnected, .captureTick] _
      (by decide)).2.2.1⟩

end AIVoiceInterview
